import Mathlib

/-!
Verification of the LTV projection core of the olist_simulator repository.

Two model variants are embedded, both over exact rational arithmetic:
* the monthly survival-compounding model of `ltv_impact_simulator_v4.py`
  (`simulate_archetype_ltv`, `calculate_total_ltv`), and
* the annual growth/retention model of `streamlit_app.py`
  (`calculate_ltv_impact`).

Python dictionaries are embedded as association lists preserving insertion
order; a failing dictionary key lookup is embedded as an `Except` error.
-/

namespace Olist

/-- Per-archetype parameters, one row of `ARCHETYPE_PARAMS` in
`ltv_impact_simulator_v4.py`. -/
structure ArchetypeParams where
  initial_monthly_revenue : ℚ
  monthly_growth_rate : ℚ
  monthly_churn_rate : ℚ
  subscription_fee : ℚ
deriving DecidableEq

/-- The fixed archetype parameter table `ARCHETYPE_PARAMS` of
`ltv_impact_simulator_v4.py` (declaration order preserved). -/
def ARCHETYPE_PARAMS : List (String × ArchetypeParams) :=
  [("Born Successful", ⟨202995/100, 5/100, 704/10000, 5228/100⟩),
   ("Grown Successful", ⟨25742/100, 5/100, 15/100, 49⟩),
   ("Struggling", ⟨57649/100, 5/100, 15/100, 4923/100⟩),
   ("Failed", ⟨40539/100, 5/100, 15/100, 4930/100⟩)]

/-- Runtime failure of the projection: a dictionary lookup with an archetype
identifier absent from the parameter table (a Python `KeyError`). -/
inductive SimError where
  | UnknownArchetype (name : String)
deriving DecidableEq

/-- The monthly loop of `simulate_archetype_ltv`: `k` remaining periods,
`month` the 1-based number of the month processed this step, `s` the running
survival probability and `cum` the running cumulative LTV.  Each month first
decays `s` by `(1 - churn)`, then accrues `fee * s`, and snapshots the
cumulative total at months that are multiples of 12. -/
def simMonths (churn fee : ℚ) : ℕ → ℕ → ℚ → ℚ → List ℚ
  | 0, _, _, _ => []
  | k + 1, month, s, cum =>
    let s2 := s * (1 - churn)
    let cum2 := cum + fee * s2
    if month % 12 == 0 then
      cum2 :: simMonths churn fee k (month + 1) s2 cum2
    else
      simMonths churn fee k (month + 1) s2 cum2

/-- The `single_seller_ltv` series of `simulate_archetype_ltv`: yearly
snapshots of the cumulative survival-weighted subscription revenue of one
seller, starting at month 1 with survival probability 1 and cumulative 0. -/
def single_seller_ltv (churn fee : ℚ) (months : ℕ) : List ℚ :=
  simMonths churn fee months 1 1 0

/-- `simulate_archetype_ltv(archetype, seller_count, months)` of
`ltv_impact_simulator_v4.py`: zero seller count returns `[0] * (months // 12)`
before any table lookup; otherwise the per-seller series is computed from the
archetype's parameters and scaled by the seller count. -/
def simulate_archetype_ltv (archetype : String) (seller_count : ℤ)
    (months : ℕ) : Except SimError (List ℚ) :=
  if seller_count = 0 then
    Except.ok (List.replicate (months / 12) 0)
  else
    match List.lookup archetype ARCHETYPE_PARAMS with
    | none => Except.error (SimError.UnknownArchetype archetype)
    | some params =>
      Except.ok
        ((single_seller_ltv params.monthly_churn_rate params.subscription_fee
          months).map (fun ltv => ltv * (seller_count : ℚ)))

/-- The iteration of `calculate_total_ltv` over allocation entries: each
archetype's 60-month series, in allocation order, propagating the first
lookup failure. -/
def v4Rows : List (String × ℤ) → Except SimError (List (String × List ℚ))
  | [] => Except.ok []
  | (a, n) :: rest =>
    match simulate_archetype_ltv a n 60 with
    | Except.error e => Except.error e
    | Except.ok series =>
      match v4Rows rest with
      | Except.error e => Except.error e
      | Except.ok tail => Except.ok ((a, series) :: tail)

/-- `calculate_total_ltv(seller_counts)` of `ltv_impact_simulator_v4.py`:
the elementwise 5-year total series together with each archetype's final-year
cumulative contribution (`archetype_ltv[-1]`). -/
def calculate_total_ltv (seller_counts : List (String × ℤ)) :
    Except SimError (List ℚ × List (String × ℚ)) :=
  match v4Rows seller_counts with
  | Except.error e => Except.error e
  | Except.ok rows =>
    Except.ok
      ((List.range 5).map (fun i => (rows.map (fun r => r.2.getD i 0)).sum),
       rows.map (fun r => (r.1, r.2.getLastD 0)))

/-- Per-archetype data, one row of `ARCHETYPE_DATA` in `streamlit_app.py`. -/
structure ArchetypeData where
  avg_ltv : ℚ
  growth_rate : ℚ
  retention_rate : ℚ
deriving DecidableEq

/-- The fixed archetype table `ARCHETYPE_DATA` of `streamlit_app.py`
(declaration order preserved). -/
def ARCHETYPE_DATA : List (String × ArchetypeData) :=
  [("Rising_Star", ⟨1542050/100, 25/100, 85/100⟩),
   ("Steady_Performer", ⟨875030/100, 15/100, 78/100⟩),
   ("Struggling_Seller", ⟨325080/100, 8/100, 45/100⟩),
   ("Underperformer", ⟨118020/100, 2/100, 25/100⟩)]

/-- The yearly loop of `calculate_ltv_impact`: for each of `k` remaining
years (`year` is the 1-based year of the current step) book
`base * (1 + growth) ^ year * remaining`, and only afterwards decay
`remaining` by the retention rate. -/
def yearlyLoop (base growth retention : ℚ) : ℕ → ℕ → ℚ → List ℚ
  | 0, _, _ => []
  | k + 1, year, remaining =>
    base * (1 + growth) ^ year * remaining ::
      yearlyLoop base growth retention k (year + 1) (remaining * retention)

/-- The `yearly_ltv` list of `calculate_ltv_impact`: five yearly values for a
cohort of `count` sellers, starting at year 1. -/
def yearly_ltv (base growth retention count : ℚ) : List ℚ :=
  yearlyLoop base growth retention 5 1 count

/-- One value of the `archetype_contributions` dictionary built by
`calculate_ltv_impact`: the archetype's summed 5-year LTV and its full
yearly series. -/
structure Contribution where
  total : ℚ
  yearly : List ℚ
deriving DecidableEq

/-- Builds the `archetype_contributions` entry of one archetype from its
table row and its seller count. -/
def mkContribution (d : ArchetypeData) (count : ℚ) : Contribution :=
  ⟨(yearly_ltv d.avg_ltv d.growth_rate d.retention_rate count).sum,
   yearly_ltv d.avg_ltv d.growth_rate d.retention_rate count⟩

/-- The iteration of `calculate_ltv_impact` over allocation entries:
archetypes with `count > 0` contribute a row (failing on an unknown
identifier); all other entries are skipped. -/
def annualRows : List (String × ℤ) →
    Except SimError (List (String × Contribution))
  | [] => Except.ok []
  | (a, n) :: rest =>
    if 0 < n then
      match List.lookup a ARCHETYPE_DATA with
      | none => Except.error (SimError.UnknownArchetype a)
      | some d =>
        match annualRows rest with
        | Except.error e => Except.error e
        | Except.ok tail => Except.ok ((a, mkContribution d (n : ℚ)) :: tail)
    else annualRows rest

/-- `calculate_ltv_impact(seller_counts)` of `streamlit_app.py`: the total
impact (sum of each contributing archetype's summed 5-year LTV), the yearly
projections (per-year totals across contributing archetypes), and the
per-archetype contribution rows. -/
def calculate_ltv_impact (seller_counts : List (String × ℤ)) :
    Except SimError (ℚ × List ℚ × List (String × Contribution)) :=
  match annualRows seller_counts with
  | Except.error e => Except.error e
  | Except.ok rows =>
    Except.ok
      ((rows.map (fun r => r.2.total)).sum,
       (List.range 5).map
         (fun y => (rows.map (fun r => r.2.yearly.getD y 0)).sum),
       rows)

/-- The `efficiency_data` ranking of `ltv_impact_simulator_v4.py`: rows of
(archetype, contribution, count) in declaration order; archetypes with a
positive count are kept, their efficiency `contribution / count` is computed,
and the result is stably sorted by efficiency descending (Python's stable
`sort` with `reverse=True`). -/
def efficiency_data (rows : List (String × ℚ × ℤ)) : List (String × ℚ) :=
  (((rows.filter (fun r => decide (0 < r.2.2))).map
      (fun r => (r.1, r.2.1 / (r.2.2 : ℚ)))).mergeSort
    (fun x y => decide (y.2 ≤ x.2)))

/-- Python's `max` over a list of numbers (0 on the empty list, which Python
rejects; all uses are on non-empty lists). -/
def listMax : List ℚ → ℚ
  | [] => 0
  | x :: xs => xs.foldl max x

/-- `yearly_projections.index(max(yearly_projections))` of
`streamlit_app.py`: the index of the first occurrence of the maximum. -/
def max_year_idx (l : List ℚ) : ℕ :=
  l.indexOf (listMax l)

/-- Closed form of the running cumulative total of the survival model:
after `M` months it equals the sum over `m = 1..M` of
`fee * (1 - churn) ^ m`. -/
def cumulative_ltv (churn fee : ℚ) (M : ℕ) : ℚ :=
  ∑ m in Finset.Icc 1 M, fee * (1 - churn) ^ m

/-- Sum of the per-archetype contributions reported by
`calculate_total_ltv` (0 on failure). -/
def v4ContributionsSum (res : Except SimError (List ℚ × List (String × ℚ))) :
    ℚ :=
  match res with
  | Except.ok r => (r.2.map Prod.snd).sum
  | Except.error _ => 0

/-- Last element of the total yearly series reported by
`calculate_total_ltv` (0 on failure). -/
def v4LastTotal (res : Except SimError (List ℚ × List (String × ℚ))) : ℚ :=
  match res with
  | Except.ok r => r.1.getLastD 0
  | Except.error _ => 0

/-- Sum of the per-archetype `total` fields reported by
`calculate_ltv_impact` (0 on failure). -/
def annContributionsSum
    (res : Except SimError (ℚ × List ℚ × List (String × Contribution))) : ℚ :=
  match res with
  | Except.ok r => (r.2.2.map (fun p => p.2.total)).sum
  | Except.error _ => 0

/-- The `total_impact` value reported by `calculate_ltv_impact`
(0 on failure). -/
def annTotalImpact
    (res : Except SimError (ℚ × List ℚ × List (String × Contribution))) : ℚ :=
  match res with
  | Except.ok r => r.1
  | Except.error _ => 0

/-- Sum of the whole `yearly_projections` series reported by
`calculate_ltv_impact` (0 on failure). -/
def annProjectionsSum
    (res : Except SimError (ℚ × List ℚ × List (String × Contribution))) : ℚ :=
  match res with
  | Except.ok r => r.2.1.sum
  | Except.error _ => 0

/-- Last element of the `yearly_projections` series reported by
`calculate_ltv_impact` (0 on failure). -/
def annLastProjection
    (res : Except SimError (ℚ × List ℚ × List (String × Contribution))) : ℚ :=
  match res with
  | Except.ok r => r.2.1.getLastD 0
  | Except.error _ => 0

/-- The per-archetype contribution rows reported by `calculate_ltv_impact`
(empty on failure). -/
def annContribRows
    (res : Except SimError (ℚ × List ℚ × List (String × Contribution))) :
    List (String × Contribution) :=
  match res with
  | Except.ok r => r.2.2
  | Except.error _ => []

end Olist

namespace Olist

/-- One-step unfolding of the cumulative closed form. -/
theorem cumulative_ltv_succ (churn fee : ℚ) (j : ℕ) :
    cumulative_ltv churn fee (j + 1) =
      cumulative_ltv churn fee j + fee * (1 - churn) ^ (j + 1) := by
  rw [cumulative_ltv, cumulative_ltv,
    Finset.sum_Icc_succ_top (by omega : 1 ≤ j + 1)]

/-- The monthly loop, started in its canonical state at month `j + 1`,
produces the cumulative closed form at every snapshot month. -/
theorem simMonths_closed (churn fee : ℚ) :
    ∀ (k j : ℕ),
      simMonths churn fee k (j + 1) ((1 - churn) ^ j)
          (cumulative_ltv churn fee j) =
        ((List.range' (j + 1) k).filter (fun m => m % 12 == 0)).map
          (cumulative_ltv churn fee) := by
  intro k
  induction k with
  | zero => intro j; simp [simMonths]
  | succ k ih =>
    intro j
    have hs : (1 - churn) ^ j * (1 - churn) = (1 - churn) ^ (j + 1) :=
      (pow_succ _ _).symm
    have hc : cumulative_ltv churn fee j + fee * (1 - churn) ^ (j + 1) =
        cumulative_ltv churn fee (j + 1) :=
      (cumulative_ltv_succ churn fee j).symm
    rw [List.range'_succ]
    simp only [simMonths, hs, hc, List.filter_cons]
    cases hb : ((j + 1) % 12 == 0) with
    | true => simp [hb, hc, ih (j + 1)]
    | false => simp [hb, hc, ih (j + 1)]

end Olist

namespace Olist

/-- The per-seller series lists the cumulative closed form at every month of
`1..months` that is a multiple of 12. -/
theorem single_seller_ltv_eq (churn fee : ℚ) (months : ℕ) :
    single_seller_ltv churn fee months =
      ((List.range' 1 months).filter (fun m => m % 12 == 0)).map
        (cumulative_ltv churn fee) := by
  have h := simMonths_closed churn fee months 0
  have h0 : cumulative_ltv churn fee 0 = 0 := by
    rw [cumulative_ltv]
    simp
  rw [single_seller_ltv]
  simpa [h0] using h

/-- Over the default 60-month horizon the per-seller series is exactly the
five yearly snapshots. -/
theorem single_seller_ltv_sixty (churn fee : ℚ) :
    single_seller_ltv churn fee 60 =
      [cumulative_ltv churn fee 12, cumulative_ltv churn fee 24,
       cumulative_ltv churn fee 36, cumulative_ltv churn fee 48,
       cumulative_ltv churn fee 60] := by
  rw [single_seller_ltv_eq]
  have h : (List.range' 1 60).filter (fun m => m % 12 == 0) =
      [12, 24, 36, 48, 60] := by decide
  rw [h]
  rfl

/-- For a nonzero seller count and a known archetype, the simulation scales
the per-seller series by the count. -/
theorem simulate_eq_map (name : String) (p : ArchetypeParams) (n : ℤ)
    (hp : List.lookup name ARCHETYPE_PARAMS = some p) (hn : n ≠ 0) :
    simulate_archetype_ltv name n 60 =
      Except.ok
        ((single_seller_ltv p.monthly_churn_rate p.subscription_fee 60).map
          (fun v => v * (n : ℚ))) := by
  rw [simulate_archetype_ltv, if_neg hn, hp]

/-- Every series returned by the 60-month simulation has five entries. -/
theorem simulate_length (name : String) (n : ℤ) (l : List ℚ)
    (h : simulate_archetype_ltv name n 60 = Except.ok l) : l.length = 5 := by
  by_cases hn : n = 0
  · rw [hn] at h
    simp only [simulate_archetype_ltv, if_pos rfl] at h
    cases h
    rfl
  · cases hp : List.lookup name ARCHETYPE_PARAMS with
    | none => rw [simulate_archetype_ltv, if_neg hn, hp] at h; cases h
    | some p =>
      rw [simulate_eq_map name p n hp hn] at h
      cases h
      rw [List.length_map, single_seller_ltv_sixty]
      rfl

/-- `getLastD` with default 0 agrees with indexing at `length - 1`. -/
theorem getLastD_eq_getD (l : List ℚ) :
    l.getLastD 0 = l.getD (l.length - 1) 0 := by
  rw [List.getLastD_eq_getLast?, List.getLast?_eq_getElem?,
    List.getD_eq_getElem?_getD]

end Olist

namespace Olist

/-- The cumulative closed form is nonnegative when the fee is nonnegative and
the churn rate is at most 1. -/
theorem cumulative_ltv_nonneg (churn fee : ℚ) (hc : churn ≤ 1) (hf : 0 ≤ fee)
    (M : ℕ) : 0 ≤ cumulative_ltv churn fee M := by
  rw [cumulative_ltv]
  refine Finset.sum_nonneg fun m _ => ?_
  have h1 : (0:ℚ) ≤ 1 - churn := by linarith
  positivity

/-- The cumulative closed form is monotone in the month count when the fee is
nonnegative and the churn rate is at most 1. -/
theorem cumulative_ltv_mono (churn fee : ℚ) (hc : churn ≤ 1) (hf : 0 ≤ fee)
    {M N : ℕ} (h : M ≤ N) :
    cumulative_ltv churn fee M ≤ cumulative_ltv churn fee N := by
  rw [cumulative_ltv, cumulative_ltv]
  refine Finset.sum_le_sum_of_subset_of_nonneg
    (Finset.Icc_subset_Icc le_rfl h) fun m _ _ => ?_
  have h1 : (0:ℚ) ≤ 1 - churn := by linarith
  positivity

/-- Closed form of the annual yearly loop: the five values in order. -/
theorem yearly_ltv_eq (b g r c : ℚ) :
    yearly_ltv b g r c =
      [b * (1 + g) ^ 1 * c, b * (1 + g) ^ 2 * (c * r),
       b * (1 + g) ^ 3 * (c * r * r), b * (1 + g) ^ 4 * (c * r * r * r),
       b * (1 + g) ^ 5 * (c * r * r * r * r)] :=
  rfl

/-- A row list produced by `annualRows` consists of table contributions:
every row's `total` is the sum of its `yearly` series, and every `yearly`
series has five entries. -/
theorem annualRows_shape :
    ∀ (l : List (String × ℤ)) (rows : List (String × Contribution)),
      annualRows l = Except.ok rows →
      ∀ row ∈ rows, row.2.total = row.2.yearly.sum ∧
        row.2.yearly.length = 5 := by
  intro l
  induction l with
  | nil =>
    intro rows h row hrow
    cases h
    cases hrow
  | cons p rest ih =>
    intro rows h row hrow
    obtain ⟨a, n⟩ := p
    by_cases hn : 0 < n
    · rw [annualRows, if_pos hn] at h
      cases hd : List.lookup a ARCHETYPE_DATA with
      | none => rw [hd] at h; cases h
      | some d =>
        rw [hd] at h
        cases ht : annualRows rest with
        | error e => rw [ht] at h; cases h
        | ok tail =>
          rw [ht] at h
          cases h
          cases hrow with
          | head =>
            constructor
            · rfl
            · rw [mkContribution, yearly_ltv_eq]
              rfl
          | tail _ hmem => exact ih tail ht row hmem
    · rw [annualRows, if_neg hn] at h
      exact ih rows h row hrow

/-- The names of the rows produced by `annualRows` are exactly the allocation
entries with positive count, in order. -/
theorem annualRows_names :
    ∀ (l : List (String × ℤ)) (rows : List (String × Contribution)),
      annualRows l = Except.ok rows →
      rows.map Prod.fst =
        (l.filter (fun q => decide (0 < q.2))).map Prod.fst := by
  intro l
  induction l with
  | nil => intro rows h; cases h; rfl
  | cons p rest ih =>
    intro rows h
    obtain ⟨a, n⟩ := p
    by_cases hn : 0 < n
    · rw [annualRows, if_pos hn] at h
      cases hd : List.lookup a ARCHETYPE_DATA with
      | none => rw [hd] at h; cases h
      | some d =>
        rw [hd] at h
        cases ht : annualRows rest with
        | error e => rw [ht] at h; cases h
        | ok tail =>
          rw [ht] at h
          cases h
          rw [List.filter_cons]
          simp [hn, ih tail ht]
    · rw [annualRows, if_neg hn] at h
      rw [List.filter_cons]
      simp only [hn]
      simpa using ih rows h

end Olist

namespace Olist

/-- Summing a pointwise sum of two functions over a list splits. -/
theorem sum_map_add (f g : ℕ → ℚ) :
    ∀ ys : List ℕ,
      (ys.map (fun y => f y + g y)).sum = (ys.map f).sum + (ys.map g).sum := by
  intro ys
  induction ys with
  | nil => simp
  | cons y ys ih =>
    simp only [List.map_cons, List.sum_cons, ih]
    ring

/-- Indexing a five-element list at 0..4 and summing recovers its sum. -/
theorem range5_getD_sum (l : List ℚ) (h : l.length = 5) :
    ((List.range 5).map (fun y => l.getD y 0)).sum = l.sum := by
  rcases l with _ | ⟨a, _ | ⟨b, _ | ⟨c, _ | ⟨d, _ | ⟨e, _ | ⟨f, l⟩⟩⟩⟩⟩⟩ <;>
    simp_all
  have h5 : List.range 5 = [0, 1, 2, 3, 4] := rfl
  rw [h5]
  simp

/-- Every series in a row list produced by `v4Rows` has five entries. -/
theorem v4Rows_shape :
    ∀ (l : List (String × ℤ)) (rows : List (String × List ℚ)),
      v4Rows l = Except.ok rows → ∀ row ∈ rows, row.2.length = 5 := by
  intro l
  induction l with
  | nil =>
    intro rows h row hrow
    cases h
    cases hrow
  | cons p rest ih =>
    intro rows h row hrow
    obtain ⟨a, n⟩ := p
    rw [v4Rows] at h
    cases hs : simulate_archetype_ltv a n 60 with
    | error e => rw [hs] at h; cases h
    | ok series =>
      rw [hs] at h
      cases ht : v4Rows rest with
      | error e => rw [ht] at h; cases h
      | ok tail =>
        rw [ht] at h
        cases h
        cases hrow with
        | head => exact simulate_length a n series hs
        | tail _ hmem => exact ih tail ht row hmem

end Olist

namespace Olist

/-- A left fold with `max` either returns its seed or an element of the
list. -/
theorem foldl_max_or (xs : List ℚ) :
    ∀ a : ℚ, xs.foldl max a = a ∨ xs.foldl max a ∈ xs := by
  induction xs with
  | nil => intro a; exact Or.inl rfl
  | cons x xs ih =>
    intro a
    rcases ih (max a x) with h | h
    · rcases max_choice a x with hm | hm
      · exact Or.inl (by rw [List.foldl_cons, h, hm])
      · exact Or.inr (by rw [List.foldl_cons, h, hm]; exact List.mem_cons_self x xs)
    · exact Or.inr (List.mem_cons_of_mem x h)

/-- The seed is at most the result of a left fold with `max`. -/
theorem le_foldl_max (xs : List ℚ) : ∀ a : ℚ, a ≤ xs.foldl max a := by
  induction xs with
  | nil => intro a; exact le_rfl
  | cons x xs ih =>
    intro a
    exact le_trans (le_max_left a x) (ih (max a x))

/-- Every list element is at most the result of a left fold with `max`. -/
theorem mem_le_foldl_max (xs : List ℚ) :
    ∀ (a x : ℚ), x ∈ xs → x ≤ xs.foldl max a := by
  induction xs with
  | nil => intro a x hx; cases hx
  | cons y xs ih =>
    intro a x hx
    rcases List.mem_cons.mp hx with rfl | hmem
    · exact le_trans (le_max_right a x) (le_foldl_max xs (max a x))
    · exact ih (max a y) x hmem

/-- Python's `max` of a non-empty list is an element of the list. -/
theorem listMax_mem (l : List ℚ) (h : l ≠ []) : listMax l ∈ l := by
  cases l with
  | nil => exact absurd rfl h
  | cons x xs =>
    rw [listMax]
    rcases foldl_max_or xs x with hm | hm
    · rw [hm]; exact List.mem_cons_self x xs
    · exact List.mem_cons_of_mem x hm

/-- Python's `max` of a list bounds every element. -/
theorem le_listMax (l : List ℚ) (x : ℚ) (hx : x ∈ l) : x ≤ listMax l := by
  cases l with
  | nil => cases hx
  | cons y xs =>
    rw [listMax]
    rcases List.mem_cons.mp hx with rfl | hmem
    · exact le_foldl_max xs x
    · exact mem_le_foldl_max xs y x hmem

/-- Positions strictly before the first occurrence of `a` do not hold `a`. -/
theorem getD_ne_of_lt_indexOf :
    ∀ (l : List ℚ) (a : ℚ) (j : ℕ), j < l.indexOf a → l.getD j 0 ≠ a := by
  intro l
  induction l with
  | nil => intro a j h; simp at h
  | cons x xs ih =>
    intro a j h
    rw [List.indexOf_cons] at h
    cases hb : (x == a) with
    | true => rw [hb] at h; simp at h
    | false =>
      rw [hb] at h
      simp only [cond_false] at h
      cases j with
      | zero =>
        simp only [List.getD_cons_zero]
        exact fun hxa => by simp [hxa] at hb
      | succ j =>
        rw [List.getD_cons_succ]
        exact ih a j (by omega)

/-- An allocation whose counts are all non-positive produces no rows. -/
theorem annualRows_all_nonpos :
    ∀ l : List (String × ℤ), (∀ p ∈ l, p.2 ≤ 0) →
      annualRows l = Except.ok [] := by
  intro l
  induction l with
  | nil => intro _; rfl
  | cons p rest ih =>
    intro h
    obtain ⟨a, n⟩ := p
    have hn : ¬ 0 < n := by
      have := h (a, n) (List.mem_cons_self _ _)
      omega
    rw [annualRows, if_neg hn]
    exact ih fun q hq => h q (List.mem_cons_of_mem _ hq)

/-- If every positively-counted entry names a known archetype, the annual
row computation succeeds. -/
theorem annualRows_isOk :
    ∀ l : List (String × ℤ),
      (∀ p ∈ l, 0 < p.2 → (List.lookup p.1 ARCHETYPE_DATA).isSome = true) →
      ∃ rows, annualRows l = Except.ok rows := by
  intro l
  induction l with
  | nil => intro _; exact ⟨[], rfl⟩
  | cons p rest ih =>
    intro h
    obtain ⟨a, n⟩ := p
    obtain ⟨tail, htail⟩ := ih fun q hq => h q (List.mem_cons_of_mem _ hq)
    by_cases hn : 0 < n
    · have hsome := h (a, n) (List.mem_cons_self _ _) hn
      cases hd : List.lookup a ARCHETYPE_DATA with
      | none => rw [hd] at hsome; cases hsome
      | some d =>
        refine ⟨(a, mkContribution d (n : ℚ)) :: tail, ?_⟩
        rw [annualRows, if_pos hn, hd, htail]
    · refine ⟨tail, ?_⟩
      rw [annualRows, if_neg hn]
      exact htail

end Olist

namespace Olist

/-- C3: for every archetype profile with churn rate in [0,1), nonnegative
fee and positive seller count, `simulate_archetype_ltv` scales by the count
the per-seller series, whose yearly snapshots equal the running cumulative
total of the survival recurrence `s ← s * (1 - churn)` followed by the
accrual `fee * s`, i.e. the partial sums of `fee * (1 - churn) ^ m`; in
particular with churn 0.10 and fee 50 the cumulative per-seller value at
month 12 is the sum for m = 1..12 of `50 * (9/10) ^ m`. -/
theorem claim_C3 :
    (∀ (name : String) (p : ArchetypeParams) (n : ℤ),
        List.lookup name ARCHETYPE_PARAMS = some p → 0 < n →
        simulate_archetype_ltv name n 60 =
          Except.ok
            ((single_seller_ltv p.monthly_churn_rate p.subscription_fee
              60).map (fun v => v * (n : ℚ)))) ∧
    (∀ churn fee : ℚ, 0 ≤ churn → churn < 1 → 0 ≤ fee →
        single_seller_ltv churn fee 60 =
          [cumulative_ltv churn fee 12, cumulative_ltv churn fee 24,
           cumulative_ltv churn fee 36, cumulative_ltv churn fee 48,
           cumulative_ltv churn fee 60]) ∧
    (single_seller_ltv (1/10) 50 60).headI =
      ∑ m in Finset.Icc 1 12, 50 * ((9:ℚ)/10) ^ m := by
  refine ⟨?_, ?_, ?_⟩
  · intro name p n hp hn
    exact simulate_eq_map name p n hp (by omega)
  · intro churn fee _ _ _
    exact single_seller_ltv_sixty churn fee
  · rw [single_seller_ltv_sixty]
    show cumulative_ltv (1/10) 50 12 = _
    rw [cumulative_ltv]
    refine Finset.sum_congr rfl fun m _ => by norm_num

/-- C3 witness: the theorem instantiated at the Born Successful archetype
with 3 sellers and at churn 1/10, fee 50. -/
theorem claim_C3_witness :
    simulate_archetype_ltv "Born Successful" 3 60 =
      Except.ok
        ((single_seller_ltv (704/10000) (5228/100) 60).map
          (fun v => v * ((3:ℤ) : ℚ))) ∧
    single_seller_ltv (1/10) 50 60 =
      [cumulative_ltv (1/10) 50 12, cumulative_ltv (1/10) 50 24,
       cumulative_ltv (1/10) 50 36, cumulative_ltv (1/10) 50 48,
       cumulative_ltv (1/10) 50 60] :=
  ⟨claim_C3.1 "Born Successful" ⟨202995/100, 5/100, 704/10000, 5228/100⟩ 3
      rfl (by norm_num),
   claim_C3.2.1 (1/10) 50 (by norm_num) (by norm_num) (by norm_num)⟩

/-- C4: the annual model books `base * (1 + growth) ^ year * remaining` for
years 1..5, appending before the retention decay of `remaining`; a positive
count for a known archetype prepends exactly that contribution row; and with
base 1000, growth 0.10, retention 0.80 and count 100 the first three yearly
values are 110000, 96800 and 85184. -/
theorem claim_C4 :
    (∀ b g r c : ℚ, yearly_ltv b g r c =
        [b * (1 + g) ^ 1 * c, b * (1 + g) ^ 2 * (c * r),
         b * (1 + g) ^ 3 * (c * r * r), b * (1 + g) ^ 4 * (c * r * r * r),
         b * (1 + g) ^ 5 * (c * r * r * r * r)]) ∧
    (∀ (a : String) (d : ArchetypeData) (n : ℤ) (l : List (String × ℤ))
        (rows : List (String × Contribution)),
        0 < n → List.lookup a ARCHETYPE_DATA = some d →
        annualRows l = Except.ok rows →
        annualRows ((a, n) :: l) =
          Except.ok ((a, mkContribution d (n : ℚ)) :: rows)) ∧
    (yearly_ltv 1000 (1/10) (4/5) 100).take 3 = [110000, 96800, 85184] := by
  refine ⟨yearly_ltv_eq, ?_, ?_⟩
  · intro a d n l rows hn hd hrows
    rw [annualRows, if_pos hn, hd, hrows]
  · rw [yearly_ltv_eq]
    norm_num

/-- C4 witness: the theorem instantiated at Rising_Star with one seller and
at the concrete rates of the specification scenario. -/
theorem claim_C4_witness :
    yearly_ltv 1000 (1/10) (4/5) 100 =
      [1000 * (1 + 1/10) ^ 1 * 100, 1000 * (1 + 1/10) ^ 2 * (100 * (4/5)),
       1000 * (1 + 1/10) ^ 3 * (100 * (4/5) * (4/5)),
       1000 * (1 + 1/10) ^ 4 * (100 * (4/5) * (4/5) * (4/5)),
       1000 * (1 + 1/10) ^ 5 * (100 * (4/5) * (4/5) * (4/5) * (4/5))] ∧
    annualRows [("Rising_Star", 1)] =
      Except.ok
        [("Rising_Star", mkContribution ⟨1542050/100, 25/100, 85/100⟩
          ((1:ℤ) : ℚ))] :=
  ⟨claim_C4.1 1000 (1/10) (4/5) 100,
   claim_C4.2.1 "Rising_Star" ⟨1542050/100, 25/100, 85/100⟩ 1 [] []
      (by norm_num) rfl rfl⟩

/-- C5 (amended): in the v4 simulator a zero seller count returns
`[0] * (months // 12)` through the explicit fast path, bypassing both the
parameter lookup and the accrual arithmetic (it succeeds even for an unknown
archetype), giving `[0, 0, 0, 0, 0]` at the default 60-month horizon; in the
annual model a zero-count archetype is skipped outright and contributes no
row at all. -/
theorem claim_C5 :
    (∀ (name : String) (months : ℕ),
        simulate_archetype_ltv name 0 months =
          Except.ok (List.replicate (months / 12) 0)) ∧
    (∀ name : String,
        simulate_archetype_ltv name 0 60 = Except.ok [0, 0, 0, 0, 0]) ∧
    (∀ (a : String) (l : List (String × ℤ)),
        annualRows ((a, 0) :: l) = annualRows l) := by
  refine ⟨?_, ?_, ?_⟩
  · intro name months
    rw [simulate_archetype_ltv, if_pos rfl]
  · intro name
    rw [simulate_archetype_ltv, if_pos rfl]
    rfl
  · intro a l
    rw [annualRows, if_neg (by omega)]

/-- C5 counterexample: in the annual model an allocation giving Rising_Star
a zero count produces an empty contributions mapping — no all-zero yearly
series is yielded for the archetype, contradicting the claim for
`calculate_ltv_impact`. -/
theorem claim_C5_counterexample :
    calculate_ltv_impact [("Rising_Star", 0)] =
      Except.ok (0, [0, 0, 0, 0, 0], []) ∧
    List.lookup "Rising_Star"
      (annContribRows (calculate_ltv_impact [("Rising_Star", 0)])) = none :=
  ⟨rfl, rfl⟩

/-- C10: `calculate_ltv_impact` keeps exactly the allocation entries with
positive count as contribution rows (in order), and an allocation whose
counts are all non-positive yields total impact 0, five zero yearly
projections and an empty contributions mapping. -/
theorem claim_C10 :
    (∀ (l : List (String × ℤ)) (rows : List (String × Contribution)),
        annualRows l = Except.ok rows →
        rows.map Prod.fst =
          (l.filter (fun q => decide (0 < q.2))).map Prod.fst) ∧
    (∀ l : List (String × ℤ), (∀ p ∈ l, p.2 ≤ 0) →
        calculate_ltv_impact l = Except.ok (0, [0, 0, 0, 0, 0], [])) := by
  refine ⟨annualRows_names, ?_⟩
  intro l h
  rw [calculate_ltv_impact, annualRows_all_nonpos l h]
  rfl

/-- C10 witness: the theorem instantiated at an allocation with only
non-positive counts, and at the empty allocation. -/
theorem claim_C10_witness :
    calculate_ltv_impact [("Rising_Star", 0), ("Underperformer", -3)] =
      Except.ok (0, [0, 0, 0, 0, 0], []) ∧
    (([] : List (String × Contribution)).map Prod.fst =
      (([] : List (String × ℤ)).filter
        (fun q => decide (0 < q.2))).map Prod.fst) :=
  ⟨claim_C10.2 [("Rising_Star", 0), ("Underperformer", -3)] (by decide),
   claim_C10.1 [] [] rfl⟩

end Olist

namespace Olist

/-- Scaling the seller count scales every yearly value. -/
theorem yearly_ltv_scale (b g r t c : ℚ) :
    yearly_ltv b g r (t * c) = (yearly_ltv b g r c).map (fun v => t * v) := by
  rw [yearly_ltv_eq, yearly_ltv_eq]
  simp only [List.map_cons, List.map_nil, List.cons.injEq, and_true]
  refine ⟨by ring, by ring, by ring, by ring, by ring⟩

/-- Scaling a list scales its sum. -/
theorem sum_map_scale (t : ℚ) :
    ∀ l : List ℚ, (l.map (fun v => t * v)).sum = t * l.sum := by
  intro l
  induction l with
  | nil => simp
  | cons x l ih =>
    simp only [List.map_cons, List.sum_cons, ih]
    ring

/-- Every value produced by the annual yearly loop from nonnegative data is
nonnegative. -/
theorem yearlyLoop_nonneg (b g r : ℚ) (hb : 0 ≤ b) (hg : 0 ≤ g)
    (hr : 0 ≤ r) :
    ∀ (k year : ℕ) (rem : ℚ), 0 ≤ rem →
      ∀ x ∈ yearlyLoop b g r k year rem, 0 ≤ x := by
  intro k
  induction k with
  | zero => intro year rem _ x hx; cases hx
  | succ k ih =>
    intro year rem hrem x hx
    rw [yearlyLoop] at hx
    rcases List.mem_cons.mp hx with rfl | hmem
    · have h1g : (0:ℚ) ≤ 1 + g := by linarith
      exact mul_nonneg (mul_nonneg hb (pow_nonneg h1g year)) hrem
    · exact ih (year + 1) (rem * r) (mul_nonneg hrem hr) x hmem

/-- Unfolding the totals row sum of `calculate_ltv_impact` over known rows. -/
theorem swap_sum_yearly :
    ∀ rows : List (String × Contribution),
      (∀ row ∈ rows, row.2.yearly.length = 5) →
      ((List.range 5).map
          (fun y => (rows.map (fun r => r.2.yearly.getD y 0)).sum)).sum =
        (rows.map (fun r => r.2.yearly.sum)).sum := by
  intro rows
  induction rows with
  | nil => intro _; simp
  | cons row rows ih =>
    intro h
    have hrow := h row (List.mem_cons_self _ _)
    have hrest : ∀ r ∈ rows, r.2.yearly.length = 5 :=
      fun r hr => h r (List.mem_cons_of_mem _ hr)
    simp only [List.map_cons, List.sum_cons]
    rw [sum_map_add (fun y => row.2.yearly.getD y 0)
      (fun y => (rows.map (fun r => r.2.yearly.getD y 0)).sum) (List.range 5)]
    rw [range5_getD_sum row.2.yearly hrow, ih hrest]

end Olist

namespace Olist

/-- C1 (amended): in the survival simulator the sum of per-archetype
contributions equals the last element of the total yearly series exactly; in
the annual model each archetype's reported `total` is the sum of its five
yearly values, so the sum of contributions equals `total_impact`, which is
the sum of the whole yearly-projection series — not its last element. -/
theorem claim_C1 :
    (∀ l : List (String × ℤ), (calculate_total_ltv l).isOk = true →
        v4ContributionsSum (calculate_total_ltv l) =
          v4LastTotal (calculate_total_ltv l)) ∧
    (∀ l : List (String × ℤ), (calculate_ltv_impact l).isOk = true →
        annContributionsSum (calculate_ltv_impact l) =
          annTotalImpact (calculate_ltv_impact l) ∧
        annTotalImpact (calculate_ltv_impact l) =
          annProjectionsSum (calculate_ltv_impact l)) := by
  constructor
  · intro l hok
    cases hv : v4Rows l with
    | error e =>
      rw [calculate_total_ltv, hv] at hok
      cases hok
    | ok rows =>
      rw [calculate_total_ltv, hv]
      show ((rows.map (fun r => (r.1, r.2.getLastD 0))).map Prod.snd).sum =
        ((List.range 5).map
          (fun i => (rows.map (fun r => r.2.getD i 0)).sum)).getLastD 0
      have hlast :
          ((List.range 5).map
            (fun i => (rows.map (fun r => r.2.getD i 0)).sum)).getLastD 0 =
          (rows.map (fun r => r.2.getD 4 0)).sum := rfl
      rw [hlast, List.map_map]
      refine congrArg List.sum (List.map_congr_left fun r hr => ?_)
      show r.2.getLastD 0 = r.2.getD 4 0
      rw [getLastD_eq_getD, v4Rows_shape l rows hv r hr]
  · intro l hok
    cases ha : annualRows l with
    | error e =>
      rw [calculate_ltv_impact, ha] at hok
      cases hok
    | ok rows =>
      rw [calculate_ltv_impact, ha]
      have hshape := annualRows_shape l rows ha
      constructor
      · rfl
      · show (rows.map (fun r => r.2.total)).sum =
          ((List.range 5).map
            (fun y => (rows.map (fun r => r.2.yearly.getD y 0)).sum)).sum
        rw [swap_sum_yearly rows fun row hrow => (hshape row hrow).2]
        refine congrArg List.sum (List.map_congr_left fun r hr => ?_)
        exact (hshape r hr).1

/-- C1 witness: the theorem instantiated at singleton allocations of one
Born Successful seller (survival model) and one Rising_Star seller (annual
model). -/
theorem claim_C1_witness :
    (v4ContributionsSum (calculate_total_ltv [("Born Successful", 1)]) =
      v4LastTotal (calculate_total_ltv [("Born Successful", 1)])) ∧
    (annContributionsSum (calculate_ltv_impact [("Rising_Star", 1)]) =
      annTotalImpact (calculate_ltv_impact [("Rising_Star", 1)]) ∧
     annTotalImpact (calculate_ltv_impact [("Rising_Star", 1)]) =
      annProjectionsSum (calculate_ltv_impact [("Rising_Star", 1)])) :=
  ⟨claim_C1.1 [("Born Successful", 1)] (by decide),
   claim_C1.2 [("Rising_Star", 1)] (by decide)⟩

unseal Rat.add Rat.mul Rat.inv Rat.sub in
/-- C1 counterexample: for the allocation of a single Rising_Star seller the
annual aggregator's sum of contributions exceeds twice the last yearly
projection, which is positive — far outside any small relative tolerance. -/
theorem claim_C1_counterexample :
    0 < annLastProjection (calculate_ltv_impact [("Rising_Star", 1)]) ∧
    2 * annLastProjection (calculate_ltv_impact [("Rising_Star", 1)]) <
      annContributionsSum (calculate_ltv_impact [("Rising_Star", 1)]) := by
  decide

/-- C2 (amended): an unknown archetype with nonzero count makes the survival
simulator fail with the key-lookup error `UnknownArchetype`, and an unknown
archetype heading the allocation with positive count does the same for the
annual model; a zero (survival) or non-positive (annual) count never fails,
even for an unknown archetype; negative counts are not rejected — there is
no `InvalidAllocation` check anywhere — and for a known archetype the
survival simulator succeeds at every integer count, as does the annual model
whenever each positively-counted entry is a known archetype. -/
theorem claim_C2 :
    (∀ (name : String) (n : ℤ),
        List.lookup name ARCHETYPE_PARAMS = none → n ≠ 0 →
        simulate_archetype_ltv name n 60 =
          Except.error (SimError.UnknownArchetype name)) ∧
    (∀ name : String,
        simulate_archetype_ltv name 0 60 =
          Except.ok (List.replicate 5 0)) ∧
    (∀ (name : String) (p : ArchetypeParams) (n : ℤ),
        List.lookup name ARCHETYPE_PARAMS = some p →
        (simulate_archetype_ltv name n 60).isOk = true) ∧
    (∀ (a : String) (n : ℤ) (rest : List (String × ℤ)),
        0 < n → List.lookup a ARCHETYPE_DATA = none →
        calculate_ltv_impact ((a, n) :: rest) =
          Except.error (SimError.UnknownArchetype a)) ∧
    (∀ l : List (String × ℤ),
        (∀ p ∈ l, 0 < p.2 → (List.lookup p.1 ARCHETYPE_DATA).isSome = true) →
        (calculate_ltv_impact l).isOk = true) := by
  refine ⟨?_, ?_, ?_, ?_, ?_⟩
  · intro name n hnone hn
    rw [simulate_archetype_ltv, if_neg hn, hnone]
  · intro name
    rw [simulate_archetype_ltv, if_pos rfl]
  · intro name p n hp
    by_cases hn : n = 0
    · rw [hn, simulate_archetype_ltv, if_pos rfl]
      rfl
    · rw [simulate_eq_map name p n hp hn]
      rfl
  · intro a n rest hn hnone
    rw [calculate_ltv_impact, annualRows, if_pos hn, hnone]
  · intro l h
    obtain ⟨rows, hrows⟩ := annualRows_isOk l h
    rw [calculate_ltv_impact, hrows]
    rfl

/-- C2 witness: the theorem instantiated at the unknown identifier Nobody
with count 7, at a zero count, at Struggling with count -2 (accepted, not
rejected), and at an unknown positively-counted annual entry. -/
theorem claim_C2_witness :
    simulate_archetype_ltv "Nobody" 7 60 =
      Except.error (SimError.UnknownArchetype "Nobody") ∧
    simulate_archetype_ltv "Nobody" 0 60 = Except.ok (List.replicate 5 0) ∧
    (simulate_archetype_ltv "Struggling" (-2) 60).isOk = true ∧
    calculate_ltv_impact [("Nobody", 4)] =
      Except.error (SimError.UnknownArchetype "Nobody") :=
  ⟨claim_C2.1 "Nobody" 7 rfl (by decide),
   claim_C2.2.1 "Nobody",
   claim_C2.2.2.1 "Struggling" ⟨57649/100, 5/100, 15/100, 4923/100⟩ (-2) rfl,
   claim_C2.2.2.2.1 "Nobody" 4 [] (by decide) rfl⟩

/-- C2 counterexample: a negative seller count does not fail — the survival
simulator succeeds on count -1 for a known archetype, so no
`InvalidAllocation` failure exists. -/
theorem claim_C2_counterexample :
    (simulate_archetype_ltv "Born Successful" (-1) 60).isOk = true := by
  decide

/-- C6: doubling the seller count exactly doubles the projection: the
survival simulator's series for count `2k` is the pointwise double of the
series for count `k` (including the error and zero cases), the annual yearly
series scales the same way, and so does the annual contribution row of a
singleton allocation. -/
theorem claim_C6 :
    (∀ (name : String) (k : ℤ), 0 ≤ k →
        simulate_archetype_ltv name (2 * k) 60 =
          Except.map (fun l => l.map (fun v => 2 * v))
            (simulate_archetype_ltv name k 60)) ∧
    (∀ b g r c : ℚ, 0 ≤ c →
        yearly_ltv b g r (2 * c) =
          (yearly_ltv b g r c).map (fun v => 2 * v)) ∧
    (∀ (a : String) (k : ℤ), 0 ≤ k →
        annualRows [(a, 2 * k)] =
          Except.map
            (fun rows => rows.map (fun p =>
              (p.1, Contribution.mk (2 * p.2.total)
                (p.2.yearly.map (fun v => 2 * v)))))
            (annualRows [(a, k)])) := by
  refine ⟨?_, ?_, ?_⟩
  · intro name k _
    by_cases hz : k = 0
    · rw [hz]
      norm_num [simulate_archetype_ltv, Except.map]
    · have h2 : 2 * k ≠ 0 := by omega
      rw [simulate_archetype_ltv, simulate_archetype_ltv, if_neg h2,
        if_neg hz]
      cases List.lookup name ARCHETYPE_PARAMS with
      | none => rfl
      | some p =>
        show Except.ok _ = Except.ok _
        refine congrArg Except.ok ?_
        simp only [List.map_map]
        refine List.map_congr_left fun v _ => ?_
        show v * ((2 * k : ℤ) : ℚ) = 2 * (v * (k : ℚ))
        push_cast
        ring
  · intro b g r c _
    have h := yearly_ltv_scale b g r 2 c
    simpa using h
  · intro a k hk
    by_cases hz : k = 0
    · rw [hz]
      norm_num [annualRows, Except.map]
    · have hpos : 0 < k := by omega
      have h2 : 0 < 2 * k := by omega
      cases hd : List.lookup a ARCHETYPE_DATA with
      | none =>
        have hL : annualRows [(a, 2 * k)] =
            Except.error (SimError.UnknownArchetype a) := by
          rw [annualRows, if_pos h2, hd]
        have hR : annualRows [(a, k)] =
            Except.error (SimError.UnknownArchetype a) := by
          rw [annualRows, if_pos hpos, hd]
        rw [hL, hR]
        rfl
      | some d =>
        have hL : annualRows [(a, 2 * k)] =
            Except.ok [(a, mkContribution d ((2 * k : ℤ) : ℚ))] := by
          rw [annualRows, if_pos h2, hd]
          rfl
        have hR : annualRows [(a, k)] =
            Except.ok [(a, mkContribution d (k : ℚ))] := by
          rw [annualRows, if_pos hpos, hd]
          rfl
        rw [hL, hR]
        show Except.ok _ = Except.ok _
        refine congrArg Except.ok ?_
        simp only [List.map_cons, List.map_nil]
        have hcast : ((2 * k : ℤ) : ℚ) = 2 * (k : ℚ) := by push_cast; ring
        have hy : yearly_ltv d.avg_ltv d.growth_rate d.retention_rate
            ((2 * k : ℤ) : ℚ) =
            (yearly_ltv d.avg_ltv d.growth_rate d.retention_rate
              (k : ℚ)).map (fun v => 2 * v) := by
          rw [hcast, yearly_ltv_scale]
        rw [mkContribution, mkContribution, hy, sum_map_scale]

end Olist

namespace Olist

/-- C6 witness: the theorem instantiated at Grown Successful with count 2
and at Rising_Star with count 1. -/
theorem claim_C6_witness :
    simulate_archetype_ltv "Grown Successful" (2 * 2) 60 =
      Except.map (fun l => l.map (fun v => 2 * v))
        (simulate_archetype_ltv "Grown Successful" 2 60) ∧
    yearly_ltv 1000 (1/10) (4/5) (2 * 100) =
      (yearly_ltv 1000 (1/10) (4/5) 100).map (fun v => 2 * v) ∧
    annualRows [("Rising_Star", 2 * 1)] =
      Except.map
        (fun rows => rows.map (fun p =>
          (p.1, Contribution.mk (2 * p.2.total)
            (p.2.yearly.map (fun v => 2 * v)))))
        (annualRows [("Rising_Star", 1)]) :=
  ⟨claim_C6.1 "Grown Successful" 2 (by norm_num),
   claim_C6.2.1 1000 (1/10) (4/5) 100 (by norm_num),
   claim_C6.2.2 "Rising_Star" 1 (by norm_num)⟩

/-- C7: with churn rate in (0,1) and nonnegative fee every yearly snapshot
of the survival model is nonnegative and the cumulative per-seller series is
non-decreasing; the count-scaled series returned by
`simulate_archetype_ltv` for a known archetype with positive count inherits
both properties; and in the annual model every yearly value from
nonnegative base, growth and count and retention in (0,1) is
nonnegative. -/
theorem claim_C7 :
    (∀ churn fee : ℚ, 0 < churn → churn < 1 → 0 ≤ fee →
        (∀ x ∈ single_seller_ltv churn fee 60, 0 ≤ x) ∧
        List.Chain' (fun a b => a ≤ b) (single_seller_ltv churn fee 60)) ∧
    (∀ (name : String) (p : ArchetypeParams) (n : ℤ),
        List.lookup name ARCHETYPE_PARAMS = some p → 0 < n →
        0 < p.monthly_churn_rate → p.monthly_churn_rate < 1 →
        0 ≤ p.subscription_fee →
        ∃ l, simulate_archetype_ltv name n 60 = Except.ok l ∧
          (∀ x ∈ l, 0 ≤ x) ∧ List.Chain' (fun a b => a ≤ b) l) ∧
    (∀ b g r c : ℚ, 0 ≤ b → 0 ≤ g → 0 < r → r < 1 → 0 ≤ c →
        ∀ x ∈ yearly_ltv b g r c, 0 ≤ x) := by
  have key : ∀ churn fee : ℚ, churn ≤ 1 → 0 ≤ fee → ∀ (n : ℚ), 0 ≤ n →
      (∀ x ∈ (single_seller_ltv churn fee 60).map (fun v => v * n), 0 ≤ x) ∧
      List.Chain' (fun a b => a ≤ b)
        ((single_seller_ltv churn fee 60).map (fun v => v * n)) := by
    intro churn fee hc1 hf n hn
    rw [single_seller_ltv_sixty]
    have hnn : ∀ M : ℕ, 0 ≤ cumulative_ltv churn fee M * n :=
      fun M => mul_nonneg (cumulative_ltv_nonneg churn fee hc1 hf M) hn
    have hmono : ∀ M N : ℕ, M ≤ N →
        cumulative_ltv churn fee M * n ≤ cumulative_ltv churn fee N * n :=
      fun M N h =>
        mul_le_mul_of_nonneg_right (cumulative_ltv_mono churn fee hc1 hf h) hn
    constructor
    · intro x hx
      simp only [List.map_cons, List.map_nil, List.mem_cons,
        List.not_mem_nil, or_false] at hx
      rcases hx with rfl | rfl | rfl | rfl | rfl
      · exact hnn 12
      · exact hnn 24
      · exact hnn 36
      · exact hnn 48
      · exact hnn 60
    · simp only [List.map_cons, List.map_nil, List.chain'_cons,
        List.chain'_singleton, and_true]
      refine ⟨hmono 12 24 (by norm_num), hmono 24 36 (by norm_num),
        hmono 36 48 (by norm_num), hmono 48 60 (by norm_num)⟩
  refine ⟨?_, ?_, ?_⟩
  · intro churn fee hc0 hc1 hf
    have h := key churn fee (le_of_lt hc1) hf 1 (by norm_num)
    simpa using h
  · intro name p n hp hn hc0 hc1 hf
    refine ⟨(single_seller_ltv p.monthly_churn_rate p.subscription_fee
        60).map (fun v => v * (n : ℚ)),
      simulate_eq_map name p n hp (by omega), ?_, ?_⟩
    · exact (key p.monthly_churn_rate p.subscription_fee (le_of_lt hc1) hf
        (n : ℚ) (by exact_mod_cast le_of_lt hn)).1
    · exact (key p.monthly_churn_rate p.subscription_fee (le_of_lt hc1) hf
        (n : ℚ) (by exact_mod_cast le_of_lt hn)).2
  · intro b g r c hb hg hr _ hc
    exact yearlyLoop_nonneg b g r hb hg (le_of_lt hr) 5 1 c hc

/-- C7 witness: the theorem instantiated at churn 1/2, fee 10, at the Born
Successful archetype with 2 sellers, and at the annual scenario rates. -/
theorem claim_C7_witness :
    ((∀ x ∈ single_seller_ltv (1/2) 10 60, 0 ≤ x) ∧
      List.Chain' (fun a b => a ≤ b) (single_seller_ltv (1/2) 10 60)) ∧
    (∃ l, simulate_archetype_ltv "Born Successful" 2 60 = Except.ok l ∧
      (∀ x ∈ l, 0 ≤ x) ∧ List.Chain' (fun a b => a ≤ b) l) ∧
    (∀ x ∈ yearly_ltv 1000 (1/10) (4/5) 100, 0 ≤ x) :=
  ⟨claim_C7.1 (1/2) 10 (by norm_num) (by norm_num) (by norm_num),
   claim_C7.2.1 "Born Successful" ⟨202995/100, 5/100, 704/10000, 5228/100⟩ 2
      rfl (by norm_num) (by norm_num) (by norm_num) (by norm_num),
   claim_C7.2.2 1000 (1/10) (4/5) 100 (by norm_num) (by norm_num)
      (by norm_num) (by norm_num) (by norm_num)⟩

end Olist

namespace Olist

/-- C8: the efficiency ranking keeps exactly the positively-counted rows
(efficiency is only ever formed with a positive denominator), is sorted
by efficiency descending, is stable (a tie keeps the earlier filtered row
first), and ranks B before A for contributions A 500, B 1000 with equal
counts 10. -/
theorem claim_C8 :
    (∀ (rows : List (String × ℚ × ℤ)) (e : String × ℚ),
        e ∈ efficiency_data rows ↔
          ∃ r, r ∈ rows ∧ 0 < r.2.2 ∧ e = (r.1, r.2.1 / (r.2.2 : ℚ))) ∧
    (∀ rows : List (String × ℚ × ℤ),
        List.Pairwise (fun x y => y.2 ≤ x.2) (efficiency_data rows)) ∧
    (∀ (rows : List (String × ℚ × ℤ)) (x y : String × ℚ),
        List.Sublist [x, y]
          ((rows.filter (fun r => decide (0 < r.2.2))).map
            (fun r => (r.1, r.2.1 / (r.2.2 : ℚ)))) →
        x.2 = y.2 → List.Sublist [x, y] (efficiency_data rows)) ∧
    efficiency_data [("A", 500, 10), ("B", 1000, 10)] =
      [("B", 100), ("A", 50)] := by
  have htrans : ∀ a b c : String × ℚ,
      (fun x y : String × ℚ => decide (y.2 ≤ x.2)) a b = true →
      (fun x y : String × ℚ => decide (y.2 ≤ x.2)) b c = true →
      (fun x y : String × ℚ => decide (y.2 ≤ x.2)) a c = true := by
    intro a b c hab hbc
    simp only [decide_eq_true_eq] at hab hbc ⊢
    exact le_trans hbc hab
  have htotal : ∀ a b : String × ℚ,
      ((fun x y : String × ℚ => decide (y.2 ≤ x.2)) a b ||
        (fun x y : String × ℚ => decide (y.2 ≤ x.2)) b a) = true := by
    intro a b
    simp only [Bool.or_eq_true, decide_eq_true_eq]
    exact le_total b.2 a.2
  refine ⟨?_, ?_, ?_, ?_⟩
  · intro rows e
    rw [efficiency_data, List.mem_mergeSort, List.mem_map]
    constructor
    · rintro ⟨r, hr, rfl⟩
      have hmem := List.mem_filter.mp hr
      exact ⟨r, hmem.1, by simpa using hmem.2, rfl⟩
    · rintro ⟨r, hmem, hpos, rfl⟩
      exact ⟨r, List.mem_filter.mpr ⟨hmem, by simpa using hpos⟩, rfl⟩
  · intro rows
    have h := List.sorted_mergeSort htrans htotal
      ((rows.filter (fun r => decide (0 < r.2.2))).map
        (fun r => (r.1, r.2.1 / (r.2.2 : ℚ))))
    rw [efficiency_data]
    exact h.imp fun hab => by simpa using hab
  · intro rows x y hsub htie
    rw [efficiency_data]
    exact List.pair_sublist_mergeSort htrans htotal
      (by simp [le_of_eq htie.symm]) hsub
  · simp [efficiency_data, List.mergeSort]
    norm_num

/-- C8 witness: the theorem instantiated at a two-row input whose two
efficiencies tie at 50, keeping declaration order. -/
theorem claim_C8_witness :
    List.Sublist [("A", (50:ℚ)), ("B", 50)]
      (efficiency_data [("A", 100, 2), ("B", 50, 1)]) := by
  have hm : ([("A", (100:ℚ), (2:ℤ)), ("B", 50, 1)].filter
        (fun r => decide (0 < r.2.2))).map
        (fun r => (r.1, r.2.1 / (r.2.2 : ℚ))) =
      [("A", (50:ℚ)), ("B", 50)] := by
    norm_num [List.filter]
  exact claim_C8.2.2.1 [("A", 100, 2), ("B", 50, 1)] ("A", 50) ("B", 50)
    (by rw [hm]) rfl

/-- C9: for a non-empty yearly series the best-performing-year index is in
range, the value there is a maximum of the series, and every strictly
earlier year has a strictly smaller value (ties are resolved by the
earliest year). -/
theorem claim_C9 :
    ∀ l : List ℚ, l ≠ [] →
      max_year_idx l < l.length ∧
      (∀ j, j < l.length → l.getD j 0 ≤ l.getD (max_year_idx l) 0) ∧
      (∀ j, j < max_year_idx l → l.getD j 0 < l.getD (max_year_idx l) 0) := by
  intro l hne
  have hmem : listMax l ∈ l := listMax_mem l hne
  have hidx : l.indexOf (listMax l) < l.length :=
    List.indexOf_lt_length.mpr hmem
  have hget : l.getD (max_year_idx l) 0 = listMax l := by
    rw [max_year_idx, List.getD_eq_getElem?_getD,
      List.getElem?_indexOf hmem]
    rfl
  refine ⟨hidx, ?_, ?_⟩
  · intro j hj
    rw [hget, List.getD_eq_getElem?_getD, List.getElem?_eq_getElem hj]
    exact le_listMax l _ (List.getElem_mem hj)
  · intro j hj
    have hlt : j < l.length := lt_trans hj hidx
    have hne2 : l.getD j 0 ≠ listMax l :=
      getD_ne_of_lt_indexOf l (listMax l) j hj
    have hle : l.getD j 0 ≤ listMax l := by
      rw [List.getD_eq_getElem?_getD, List.getElem?_eq_getElem hlt]
      exact le_listMax l _ (List.getElem_mem hlt)
    rw [hget]
    exact lt_of_le_of_ne hle hne2

/-- C9 witness: the theorem instantiated at the series [1, 3, 3, 2], whose
maximum 3 first occurs at index 1. -/
theorem claim_C9_witness :
    max_year_idx [(1:ℚ), 3, 3, 2] < 4 ∧
    (∀ j, j < ([(1:ℚ), 3, 3, 2] : List ℚ).length →
      ([(1:ℚ), 3, 3, 2] : List ℚ).getD j 0 ≤
        ([(1:ℚ), 3, 3, 2] : List ℚ).getD (max_year_idx [(1:ℚ), 3, 3, 2]) 0) ∧
    (∀ j, j < max_year_idx [(1:ℚ), 3, 3, 2] →
      ([(1:ℚ), 3, 3, 2] : List ℚ).getD j 0 <
        ([(1:ℚ), 3, 3, 2] : List ℚ).getD (max_year_idx [(1:ℚ), 3, 3, 2]) 0) :=
  claim_C9 [(1:ℚ), 3, 3, 2] (by simp)

end Olist
